import Mathlib

/-!
Verification of the `africa_research_base` on-chain program
(`programs/africa_research_base/src`): the create-dataset operation, its
validation, its checked counter arithmetic, and the registry / reputation
bookkeeping, shallowly embedded as pure functions over an explicit chain
state.  Machine integers are modelled as `Nat` with explicit `2^w` bounds
at every checked addition; fallible paths return `Except`.
-/

set_option linter.unusedVariables false
set_option maxRecDepth 100000

namespace ARB

/-- Account addresses (`Pubkey` in the source) are modelled as naturals. -/
abbrev Pubkey := Nat

/-- `u32::checked_add`: `some (a+b)` when the sum fits in 32 bits, else `none`. -/
def u32CheckedAdd (a b : Nat) : Option Nat :=
  if a + b < 2 ^ 32 then some (a + b) else none

/-- `u64::checked_add`: `some (a+b)` when the sum fits in 64 bits, else `none`. -/
def u64CheckedAdd (a b : Nat) : Option Nat :=
  if a + b < 2 ^ 64 then some (a + b) else none

/-- The error enum from `src/error.rs` (`ErrorCode`). -/
inductive ErrorCode where
  | CustomError
  | HashTooLong
  | FileNameTooLong
  | InvalidQualityScore
  | TooManyFields
  | FileTooLarge
  | DatasetInactive
  | UnauthorizedUpdate
  | NumericalOverflow
  | InvalidReputationUpdate
  | UnauthorizedReputationUpdate
  | InvalidContributorStatus
  deriving DecidableEq

/-- How a transaction can fail.  `program e` is a `Result::Err` carrying an
`ErrorCode`; `panicked` is an abort coming from `.unwrap()` on `None` (the
registry counter increment in `create_dataset.rs` line 108); the two
`account*` variants are the substrate-level failures of the Anchor accounts
constraints (`init` on an existing address, missing required account). -/
inductive TxError where
  | program : ErrorCode → TxError
  | panicked : TxError
  | accountAlreadyInUse : TxError
  | accountNotFound : TxError
  deriving DecidableEq

/-- The `Reputation` account from `src/state/reputation.rs`.
Field widths: `contributor : Pubkey`, `total_uploads : u32`,
`download_time : i64`, `total_quality_score : u64`, `total_downloads : u64`,
`total_citations : u32`, `reputation_score : u32`, `bump : u8`. -/
structure Reputation where
  contributor : Pubkey
  total_uploads : Nat
  download_time : Int
  total_quality_score : Nat
  total_downloads : Nat
  total_citations : Nat
  reputation_score : Nat
  bump : Nat
  deriving DecidableEq

/-- Modelled from the spec: the `Registry` account (its `state` file is not
under `src/`; spec §3 gives `owner` and an unsigned `total_datasets`
counter, and `create_dataset.rs` reads `registry.bump` and
`registry.total_datasets`).  `total_datasets` is a `u64` counter. -/
structure Registry where
  owner : Pubkey
  total_datasets : Nat
  bump : Nat
  deriving DecidableEq

/-- Modelled from the spec and from the field assignments in
`create_dataset.rs` lines 92–106: the `Dataset` account (its `state` file is
not under `src/`).  Byte strings are `List Nat`; `upload_timestamp : i64`,
`last_updated : Option<i64>`, `download_count : u32`. -/
structure Dataset where
  id : Pubkey
  contributor : Pubkey
  content_hash : List Nat
  ai_metadata : List Nat
  file_name : List Nat
  file_size : Nat
  data_uri : List Nat
  column_count : Nat
  row_count : Nat
  quality_score : Nat
  upload_timestamp : Int
  last_updated : Option Int
  download_count : Nat
  is_active : Bool
  bump : Nat
  deriving DecidableEq

/-- The caller-supplied fields consumed by `CreateDataset::create_dataset`
(`content_hash : [u8;32]`, `ai_metadata : Vec<u8>`, `file_name : Vec<u8>`,
`file_size : u64`, `data_uri : [u8;256]`, `column_count`, `row_count : u64`,
`quality_score : u8`). -/
structure CreateDatasetArgs where
  content_hash : List Nat
  ai_metadata : List Nat
  file_name : List Nat
  file_size : Nat
  data_uri : List Nat
  column_count : Nat
  row_count : Nat
  quality_score : Nat
  deriving DecidableEq

/-- `CreateDataset::update_reputation` (`create_dataset.rs` lines 49–62):
sets `contributor`, then `total_uploads := total_uploads.checked_add(1)` and
`total_quality_score := total_quality_score.checked_add(quality_score as u64)`,
each `.ok_or(ErrorCode::NumericalOverflow)?`. -/
def update_reputation (contributorKey : Pubkey) (reputation : Reputation)
    (quality_score : Nat) : Except ErrorCode Reputation :=
  match u32CheckedAdd reputation.total_uploads 1 with
  | none => .error .NumericalOverflow
  | some uploads =>
    match u64CheckedAdd reputation.total_quality_score quality_score with
    | none => .error .NumericalOverflow
    | some qsum =>
      .ok { reputation with contributor := contributorKey
                            total_uploads := uploads
                            total_quality_score := qsum }

/-- `CreateDataset::create_dataset` (`create_dataset.rs` lines 64–113):
the three `require!` validations in source order, then the `Dataset` record
is populated (with `id = dataset.key()`, clock timestamp, defaults), then
`registry.total_datasets = registry.total_datasets.checked_add(1).unwrap()`
(a `None` here panics, aborting the transaction), then
`update_reputation(quality_score)?`. -/
def create_dataset (datasetKey contributorKey : Pubkey) (now : Int)
    (bumpDataset : Nat) (registry : Registry) (reputation : Reputation)
    (a : CreateDatasetArgs) :
    Except TxError (Dataset × Registry × Reputation) :=
  if ¬ a.file_name.length ≤ 100 then .error (.program .FileNameTooLong)
  else if ¬ a.quality_score ≤ 100 then .error (.program .InvalidQualityScore)
  else if ¬ a.file_size ≤ 104857600 then .error (.program .FileTooLarge)
  else
    let dataset : Dataset :=
      { id := datasetKey
        contributor := contributorKey
        content_hash := a.content_hash
        ai_metadata := a.ai_metadata
        file_name := a.file_name
        file_size := a.file_size
        data_uri := a.data_uri
        column_count := a.column_count
        row_count := a.row_count
        quality_score := a.quality_score
        upload_timestamp := now
        last_updated := none
        download_count := 0
        is_active := true
        bump := bumpDataset }
    match u64CheckedAdd registry.total_datasets 1 with
    | none => .error .panicked
    | some n =>
      let registry := { registry with total_datasets := n }
      match update_reputation contributorKey reputation a.quality_score with
      | .error e => .error (.program e)
      | .ok reputation => .ok (dataset, registry, reputation)

instance {ε α : Type} [DecidableEq ε] [DecidableEq α] :
    DecidableEq (Except ε α) := fun x y =>
  match x, y with
  | .ok a, .ok b =>
    if h : a = b then .isTrue (by rw [h]) else .isFalse (by intro he; cases he; exact h rfl)
  | .error a, .error b =>
    if h : a = b then .isTrue (by rw [h]) else .isFalse (by intro he; cases he; exact h rfl)
  | .ok _, .error _ => .isFalse (by intro he; cases he)
  | .error _, .ok _ => .isFalse (by intro he; cases he)

/-- Association-list lookup on account maps keyed by `Pubkey`. -/
def lookupKey {β : Type} (k : Pubkey) : List (Pubkey × β) → Option β
  | [] => none
  | (k2, v) :: rest => if k = k2 then some v else lookupKey k rest

/-- The persisted chain state: `registries` keyed by the admin key (PDA
seeds `["registry", admin]`), `datasets` keyed by the dataset account
address, `reputations` keyed by the contributor key (PDA seeds
`["reputation", contributor]`). -/
structure ChainState where
  registries : List (Pubkey × Registry)
  datasets : List (Pubkey × Dataset)
  reputations : List (Pubkey × Reputation)
  deriving DecidableEq

/-- The dataset PDA of `create_dataset.rs` lines 25–32: the account address
is derived from the seeds `["dataset", contributor]` alone — modelled
abstractly as an injective function of the contributor key. -/
def datasetPda (contributor : Pubkey) : Pubkey := 2 * contributor + 1

/-- The `create_dataset` instruction boundary: the `Accounts` resolution of
`CreateDataset` (registry and reputation must exist at their PDAs; the
dataset account is `init`, so its address must be unoccupied), then the
handler, then the Anchor exit write-back.  The exit serializes back only
accounts marked `mut` or `init`: `registry` is `#[account(mut)]` and
`dataset` is `init`, so their new values persist, but the `reputation`
account (`create_dataset.rs` lines 39–43) carries only `seeds`/`bump` — no
`mut` — so the handler's in-memory reputation update is dropped and the
stored reputation is unchanged even on success.  The wrapper in `lib.rs`
additionally accepts caller-supplied `upload_timestamp`, `last_updated`,
`download_count` and `is_active` arguments; the handler has the matching
parameters commented out and never reads them, so they are taken here and
discarded. -/
def processCreateDataset (s : ChainState) (admin user contributor : Pubkey)
    (now : Int) (a : CreateDatasetArgs) (callerUploadTimestamp : Int)
    (callerLastUpdated : Option Int) (callerDownloadCount : Nat)
    (callerIsActive : Bool) (bumpDataset : Nat) : Except TxError ChainState :=
  match lookupKey admin s.registries with
  | none => .error .accountNotFound
  | some registry =>
    match lookupKey contributor s.reputations with
    | none => .error .accountNotFound
    | some reputation =>
      match lookupKey (datasetPda contributor) s.datasets with
      | some _ => .error .accountAlreadyInUse
      | none =>
        match create_dataset (datasetPda contributor) contributor now
            bumpDataset registry reputation a with
        | .error e => .error e
        | .ok (dataset, registry2, reputation2) =>
          .ok { registries := (admin, registry2) :: s.registries
                datasets := (datasetPda contributor, dataset) :: s.datasets
                reputations := s.reputations }

/-- Modelled from the spec: the `initialize` operation
(`instructions/initialize.rs` is not under `src/`).  Spec §4.3 and §6:
creates an empty Registry record for an administrator, failing if one
already exists for that identity. -/
def initializeRegistry (s : ChainState) (admin : Pubkey) (bump : Nat) :
    Except TxError ChainState :=
  match lookupKey admin s.registries with
  | some _ => .error .accountAlreadyInUse
  | none =>
    .ok { s with registries :=
            (admin, { owner := admin, total_datasets := 0, bump := bump })
              :: s.registries }

/-- The ledger substrate applies a transaction atomically: an `ok` result
replaces the state, any failure leaves the state untouched (spec §1, §4.2:
apply-or-reject as a single commit unit). -/
def applyTx (s : ChainState) (r : Except TxError ChainState) : ChainState :=
  match r with
  | .ok s2 => s2
  | .error _ => s

/-- One call description for sequences of `create_dataset` instructions. -/
structure CreateCall where
  user : Pubkey
  contributor : Pubkey
  now : Int
  args : CreateDatasetArgs
  callerUploadTimestamp : Int
  callerLastUpdated : Option Int
  callerDownloadCount : Nat
  callerIsActive : Bool
  bumpDataset : Nat
  deriving DecidableEq

/-- Run `processCreateDataset` for each call in turn against one registry
(keyed by `admin`), stopping at the first failure. -/
def runCreates (admin : Pubkey) (s : ChainState) :
    List CreateCall → Except TxError ChainState
  | [] => .ok s
  | c :: cs =>
    match processCreateDataset s admin c.user c.contributor c.now c.args
        c.callerUploadTimestamp c.callerLastUpdated c.callerDownloadCount
        c.callerIsActive c.bumpDataset with
    | .error e => .error e
    | .ok s2 => runCreates admin s2 cs

/-- The operations of the core (spec §6): `initialize` and
`create_dataset`. -/
inductive Op where
  | initOp (admin : Pubkey) (bump : Nat)
  | createOp (admin : Pubkey) (c : CreateCall)

/-- Apply one operation to the chain state through the transactional
substrate. -/
def stepOp (s : ChainState) (o : Op) : ChainState :=
  match o with
  | .initOp admin bump => applyTx s (initializeRegistry s admin bump)
  | .createOp admin c =>
    applyTx s (processCreateDataset s admin c.user c.contributor c.now c.args
      c.callerUploadTimestamp c.callerLastUpdated c.callerDownloadCount
      c.callerIsActive c.bumpDataset)

/-- The validated bounds on a stored dataset record (spec §4.1). -/
def DatasetOk (d : Dataset) : Prop :=
  d.file_name.length ≤ 100 ∧ d.quality_score ≤ 100 ∧ d.file_size ≤ 104857600

instance (d : Dataset) : Decidable (DatasetOk d) := by
  unfold DatasetOk; infer_instance

/-- The dataset record as populated by `create_dataset.rs` lines 92–106:
caller fields verbatim, `id` the account address, clock timestamp, and the
defaults `last_updated = none`, `download_count = 0`, `is_active = true`. -/
def populatedDataset (datasetKey contributorKey : Pubkey) (now : Int)
    (bumpDataset : Nat) (a : CreateDatasetArgs) : Dataset :=
  { id := datasetKey
    contributor := contributorKey
    content_hash := a.content_hash
    ai_metadata := a.ai_metadata
    file_name := a.file_name
    file_size := a.file_size
    data_uri := a.data_uri
    column_count := a.column_count
    row_count := a.row_count
    quality_score := a.quality_score
    upload_timestamp := now
    last_updated := none
    download_count := 0
    is_active := true
    bump := bumpDataset }

/-- Concrete well-formed arguments (`file_name = "a.csv"`, `file_size =
1000`) with a chosen quality score, used by witnesses. -/
def exArgs (qs : Nat) : CreateDatasetArgs :=
  { content_hash := List.replicate 32 0
    ai_metadata := []
    file_name := [97, 46, 99, 115, 118]
    file_size := 1000
    data_uri := List.replicate 256 0
    column_count := 3
    row_count := 4
    quality_score := qs }

/-- A fresh reputation record for contributor `1`. -/
def exRep : Reputation :=
  { contributor := 1
    total_uploads := 0
    download_time := 0
    total_quality_score := 0
    total_downloads := 0
    total_citations := 0
    reputation_score := 0
    bump := 7 }

/-- A fresh registry record for admin `0`. -/
def exReg0 : Registry := { owner := 0, total_datasets := 0, bump := 5 }

/-- A fresh reputation record for contributor `2`. -/
def exRepB : Reputation := { exRep with contributor := 2 }

/-- A fresh chain state: one registry for admin `0` with `total_datasets =
0`, one fresh reputation for contributor `1`, no datasets. -/
def exS0 : ChainState :=
  { registries := [(0, exReg0)]
    datasets := []
    reputations := [(1, exRep)] }

/-- `exS0` with fresh reputations for the two contributors `1` and `2`. -/
def exS0b : ChainState :=
  { registries := [(0, exReg0)]
    datasets := []
    reputations := [(1, exRep), (2, exRepB)] }

/-- The state after one successful `create_dataset` call with quality score
50 on `exS0`. -/
def exS1 : ChainState :=
  applyTx exS0 (processCreateDataset exS0 0 9 1 1234 (exArgs 50) 0 none 0 true 3)

/-- `exS0` with the registry counter at the `u64` maximum. -/
def exSMax : ChainState :=
  { exS0 with registries := [(0, { owner := 0, total_datasets := 2 ^ 64 - 1, bump := 5 })] }

/-- The reputation record with `total_uploads` at the `u32` maximum. -/
def exRepOv : Reputation := { exRep with total_uploads := 2 ^ 32 - 1 }

/-- `exS0` with the contributor's `total_uploads` at the `u32` maximum. -/
def exSOv : ChainState := { exS0 with reputations := [(1, exRepOv)] }

/-- A concrete `CreateCall` by contributor `1` with the given quality
score. -/
def exCall (qs : Nat) : CreateCall :=
  { user := 9
    contributor := 1
    now := 1234
    args := exArgs qs
    callerUploadTimestamp := 0
    callerLastUpdated := none
    callerDownloadCount := 0
    callerIsActive := true
    bumpDataset := 3 }

/-- A concrete `CreateCall` by contributor `2` with the given quality
score. -/
def exCallB (qs : Nat) : CreateCall := { exCall qs with contributor := 2 }

/-- The state after one successful `create_dataset` call with quality score
80 on `exS0`. -/
def exS80 : ChainState :=
  applyTx exS0 (processCreateDataset exS0 0 9 1 1234 (exArgs 80) 0 none 0 true 3)

/-- The state after the calls `exCall 50` then `exCallB 70` on `exS0b`. -/
def exS2 : ChainState :=
  applyTx (stepOp exS0b (.createOp 0 (exCall 50)))
    (processCreateDataset (stepOp exS0b (.createOp 0 (exCall 50))) 0 9 2 1234
      (exArgs 70) 0 none 0 true 3)

/- ------------------------------------------------------------------ -/
/- Helper lemmas                                                       -/
/- ------------------------------------------------------------------ -/

theorem lookupKey_nil {β : Type} {k : Pubkey} :
    lookupKey k ([] : List (Pubkey × β)) = none := rfl

theorem lookupKey_cons {β : Type} {k k2 : Pubkey} {v : β} {l : List (Pubkey × β)} :
    lookupKey k ((k2, v) :: l) = if k = k2 then some v else lookupKey k l := rfl

theorem u32CheckedAdd_some {a b c : Nat} :
    u32CheckedAdd a b = some c ↔ a + b < 2 ^ 32 ∧ c = a + b := by
  unfold u32CheckedAdd
  split_ifs with h <;> simp [h, eq_comm] <;> omega

theorem u64CheckedAdd_some {a b c : Nat} :
    u64CheckedAdd a b = some c ↔ a + b < 2 ^ 64 ∧ c = a + b := by
  unfold u64CheckedAdd
  split_ifs with h <;> simp [h, eq_comm] <;> omega

theorem u32CheckedAdd_none {a b : Nat} :
    u32CheckedAdd a b = none ↔ ¬ a + b < 2 ^ 32 := by
  unfold u32CheckedAdd
  split_ifs with h <;> simp [h] <;> omega

theorem u64CheckedAdd_none {a b : Nat} :
    u64CheckedAdd a b = none ↔ ¬ a + b < 2 ^ 64 := by
  unfold u64CheckedAdd
  split_ifs with h <;> simp [h] <;> omega

theorem update_reputation_ok {ck : Pubkey} {rep rep2 : Reputation} {qs : Nat} :
    update_reputation ck rep qs = .ok rep2 ↔
      rep.total_uploads + 1 < 2 ^ 32 ∧
      rep.total_quality_score + qs < 2 ^ 64 ∧
      rep2 = { rep with contributor := ck
                        total_uploads := rep.total_uploads + 1
                        total_quality_score := rep.total_quality_score + qs } := by
  unfold update_reputation
  constructor
  · intro h
    split at h
    · cases h
    case _ u hu =>
      split at h
      · cases h
      case _ q hq =>
        cases h
        simp only [u32CheckedAdd_some] at hu
        simp only [u64CheckedAdd_some] at hq
        refine ⟨hu.1, hq.1, ?_⟩
        cases rep
        simp_all
  · rintro ⟨h1, h2, h3⟩
    have hu : u32CheckedAdd rep.total_uploads 1 = some (rep.total_uploads + 1) :=
      u32CheckedAdd_some.mpr ⟨h1, rfl⟩
    have hq : u64CheckedAdd rep.total_quality_score qs =
        some (rep.total_quality_score + qs) :=
      u64CheckedAdd_some.mpr ⟨h2, rfl⟩
    simp only [hu, hq, h3]

theorem update_reputation_error {ck : Pubkey} {rep : Reputation} {qs : Nat}
    {e : ErrorCode} :
    update_reputation ck rep qs = .error e ↔
      e = .NumericalOverflow ∧
      (¬ rep.total_uploads + 1 < 2 ^ 32 ∨
        ¬ rep.total_quality_score + qs < 2 ^ 64) := by
  unfold update_reputation
  constructor
  · intro h
    split at h
    case _ hu =>
      cases h
      exact ⟨rfl, Or.inl (u32CheckedAdd_none.mp hu)⟩
    case _ u hu =>
      split at h
      case _ hq =>
        cases h
        exact ⟨rfl, Or.inr (u64CheckedAdd_none.mp hq)⟩
      case _ q hq =>
        cases h
  · rintro ⟨he, h2 | h2⟩
    · rw [show u32CheckedAdd rep.total_uploads 1 = none from
        u32CheckedAdd_none.mpr h2, he]
    · cases hu : u32CheckedAdd rep.total_uploads 1 with
      | none => rw [he]
      | some u =>
        rw [show u64CheckedAdd rep.total_quality_score qs = none from
          u64CheckedAdd_none.mpr h2, he]

theorem create_dataset_ok {dk ck : Pubkey} {now : Int} {b : Nat}
    {r : Registry} {rep : Reputation} {a : CreateDatasetArgs}
    {out : Dataset × Registry × Reputation} :
    create_dataset dk ck now b r rep a = .ok out ↔
      a.file_name.length ≤ 100 ∧ a.quality_score ≤ 100 ∧
      a.file_size ≤ 104857600 ∧
      r.total_datasets + 1 < 2 ^ 64 ∧
      rep.total_uploads + 1 < 2 ^ 32 ∧
      rep.total_quality_score + a.quality_score < 2 ^ 64 ∧
      out = (populatedDataset dk ck now b a,
             { r with total_datasets := r.total_datasets + 1 },
             { rep with contributor := ck
                        total_uploads := rep.total_uploads + 1
                        total_quality_score :=
                          rep.total_quality_score + a.quality_score }) := by
  unfold create_dataset
  constructor
  · intro h
    split_ifs at h with h1 h2 h3
    split at h
    case _ hr =>
      cases h
    case _ n hr =>
      split at h
      case _ e hrep =>
        cases h
      case _ rep2 hrep =>
        cases h
        rw [u64CheckedAdd_some] at hr
        rw [update_reputation_ok] at hrep
        push_neg at h1 h2 h3
        refine ⟨h1, h2, h3, hr.1, hrep.1, hrep.2.1, ?_⟩
        rw [hrep.2.2, hr.2]
        rfl
  · rintro ⟨h1, h2, h3, h4, h5, h6, h7⟩
    rw [if_neg (by omega), if_neg (by omega), if_neg (by omega)]
    rw [show u64CheckedAdd r.total_datasets 1 = some (r.total_datasets + 1) from
      u64CheckedAdd_some.mpr ⟨h4, rfl⟩]
    rw [show update_reputation ck rep a.quality_score = .ok _ from
      update_reputation_ok.mpr ⟨h5, h6, rfl⟩]
    rw [h7]
    rfl

/-- The state written by a successful `create_dataset` instruction: the
incremented registry and the new dataset persist; the reputations map is
exactly the prior one, because the `reputation` account is not `mut` and
Anchor's exit never writes the handler's reputation update back. -/
def successState (s : ChainState) (admin c : Pubkey) (now : Int)
    (a : CreateDatasetArgs) (b : Nat) (r : Registry) : ChainState :=
  { registries := (admin, { r with total_datasets := r.total_datasets + 1 })
      :: s.registries
    datasets := (datasetPda c, populatedDataset (datasetPda c) c now b a)
      :: s.datasets
    reputations := s.reputations }

theorem processCreateDataset_ok {s : ChainState} {admin user c : Pubkey}
    {now : Int} {a : CreateDatasetArgs} {cut : Int} {clu : Option Int}
    {cdc : Nat} {cia : Bool} {b : Nat} {s2 : ChainState} :
    processCreateDataset s admin user c now a cut clu cdc cia b = .ok s2 ↔
      ∃ r rep, lookupKey admin s.registries = some r ∧
        lookupKey c s.reputations = some rep ∧
        lookupKey (datasetPda c) s.datasets = none ∧
        a.file_name.length ≤ 100 ∧ a.quality_score ≤ 100 ∧
        a.file_size ≤ 104857600 ∧
        r.total_datasets + 1 < 2 ^ 64 ∧
        rep.total_uploads + 1 < 2 ^ 32 ∧
        rep.total_quality_score + a.quality_score < 2 ^ 64 ∧
        s2 = successState s admin c now a b r := by
  unfold processCreateDataset
  constructor
  · intro h
    split at h
    · cases h
    case _ r hr =>
      split at h
      · cases h
      case _ rep hrep =>
        split at h
        case _ d hd =>
          cases h
        case _ hd =>
          split at h
          case _ e hcd =>
            cases h
          case _ out hcd =>
            obtain ⟨dataset, registry2, reputation2⟩ := out
            cases h
            rw [create_dataset_ok] at hcd
            obtain ⟨h1, h2, h3, h4, h5, h6, h7⟩ := hcd
            refine ⟨r, rep, hr, hrep, hd, h1, h2, h3, h4, h5, h6, ?_⟩
            cases h7
            rfl
  · rintro ⟨r, rep, hr, hrep, hd, h1, h2, h3, h4, h5, h6, h7⟩
    simp only [hr, hrep, hd]
    rw [show create_dataset (datasetPda c) c now b r rep a = .ok _ from
      create_dataset_ok.mpr ⟨h1, h2, h3, h4, h5, h6, rfl⟩]
    rw [h7]
    rfl

theorem processCreateDataset_error_applyTx {s : ChainState}
    {admin user c : Pubkey} {now : Int} {a : CreateDatasetArgs} {cut : Int}
    {clu : Option Int} {cdc : Nat} {cia : Bool} {b : Nat} {e : TxError}
    (h : processCreateDataset s admin user c now a cut clu cdc cia b = .error e) :
    applyTx s (processCreateDataset s admin user c now a cut clu cdc cia b) = s := by
  rw [h]
  rfl

theorem create_dataset_fileName {dk ck : Pubkey} {now : Int} {b : Nat}
    {r : Registry} {rep : Reputation} {a : CreateDatasetArgs}
    (h : 100 < a.file_name.length) :
    create_dataset dk ck now b r rep a = .error (.program .FileNameTooLong) := by
  unfold create_dataset
  rw [if_pos (by omega)]

theorem create_dataset_qualityScore {dk ck : Pubkey} {now : Int} {b : Nat}
    {r : Registry} {rep : Reputation} {a : CreateDatasetArgs}
    (h1 : a.file_name.length ≤ 100) (h2 : 100 < a.quality_score) :
    create_dataset dk ck now b r rep a = .error (.program .InvalidQualityScore) := by
  unfold create_dataset
  rw [if_neg (by omega), if_pos (by omega)]

theorem create_dataset_fileSize {dk ck : Pubkey} {now : Int} {b : Nat}
    {r : Registry} {rep : Reputation} {a : CreateDatasetArgs}
    (h1 : a.file_name.length ≤ 100) (h2 : a.quality_score ≤ 100)
    (h3 : 104857600 < a.file_size) :
    create_dataset dk ck now b r rep a = .error (.program .FileTooLarge) := by
  unfold create_dataset
  rw [if_neg (by omega), if_neg (by omega), if_pos (by omega)]

theorem runCreates_registry (admin : Pubkey) :
    ∀ (calls : List CreateCall) (s : ChainState) (r : Registry)
      (s2 : ChainState),
      lookupKey admin s.registries = some r →
      runCreates admin s calls = .ok s2 →
      ∃ r2, lookupKey admin s2.registries = some r2 ∧
        r2.total_datasets = r.total_datasets + calls.length ∧
        r2.owner = r.owner := by
  intro calls
  induction calls with
  | nil =>
    intro s r s2 hr h
    cases h
    exact ⟨r, hr, by simp, rfl⟩
  | cons call cs ih =>
    intro s r s2 hr h
    unfold runCreates at h
    split at h
    · cases h
    case _ s1 hp =>
      rw [processCreateDataset_ok] at hp
      obtain ⟨r0, rep0, hr0, _, _, _, _, _, _, _, _, hs1⟩ := hp
      rw [hr] at hr0
      cases hr0
      have hr1 : lookupKey admin s1.registries =
          some { r with total_datasets := r.total_datasets + 1 } := by
        rw [hs1]
        simp [successState, lookupKey_cons]
      obtain ⟨r2, hr2, hlen, howner⟩ := ih s1 _ s2 hr1 h
      exact ⟨r2, hr2, by simp at hlen ⊢; omega, howner⟩

theorem runCreates_reputations_unchanged (admin : Pubkey) :
    ∀ (calls : List CreateCall) (s s2 : ChainState),
      runCreates admin s calls = .ok s2 → s2.reputations = s.reputations := by
  intro calls
  induction calls with
  | nil =>
    intro s s2 h
    cases h
    rfl
  | cons call cs ih =>
    intro s s2 h
    unfold runCreates at h
    split at h
    · cases h
    case _ s1 hp =>
      rw [processCreateDataset_ok] at hp
      obtain ⟨r0, rep0, _, _, _, _, _, _, _, _, _, hs1⟩ := hp
      rw [ih s1 s2 h, hs1]
      rfl

theorem second_call_same_contributor {s s1 : ChainState}
    {admin user user2 c : Pubkey} {now now2 : Int}
    {a a2 : CreateDatasetArgs} {cut cut2 : Int} {clu clu2 : Option Int}
    {cdc cdc2 : Nat} {cia cia2 : Bool} {b b2 : Nat}
    (h : processCreateDataset s admin user c now a cut clu cdc cia b = .ok s1) :
    processCreateDataset s1 admin user2 c now2 a2 cut2 clu2 cdc2 cia2 b2 =
      .error .accountAlreadyInUse := by
  rw [processCreateDataset_ok] at h
  obtain ⟨r, rep, hr, hrep, _, _, _, _, _, _, _, hs1⟩ := h
  subst hs1
  unfold processCreateDataset
  simp [successState, lookupKey_cons, hrep]

theorem stepOp_registry_mono (s : ChainState) (o : Op) (admin : Pubkey)
    (r : Registry) (hr : lookupKey admin s.registries = some r) :
    ∃ r2, lookupKey admin (stepOp s o).registries = some r2 ∧
      r.total_datasets ≤ r2.total_datasets := by
  cases o with
  | initOp a2 b =>
    simp only [stepOp, initializeRegistry]
    cases h2 : lookupKey a2 s.registries with
    | some r3 =>
      simp only [applyTx]
      exact ⟨r, hr, le_refl _⟩
    | none =>
      have hne : admin ≠ a2 := by
        intro he
        rw [he, h2] at hr
        cases hr
      simp only [applyTx]
      refine ⟨r, ?_, le_refl _⟩
      rw [lookupKey_cons, if_neg hne]
      exact hr
  | createOp admin2 call =>
    simp only [stepOp]
    cases hp : processCreateDataset s admin2 call.user call.contributor
        call.now call.args call.callerUploadTimestamp call.callerLastUpdated
        call.callerDownloadCount call.callerIsActive call.bumpDataset with
    | error e =>
      simp only [hp, applyTx]
      exact ⟨r, hr, le_refl _⟩
    | ok s1 =>
      simp only [hp, applyTx]
      rw [processCreateDataset_ok] at hp
      obtain ⟨r0, rep0, hr0, _, _, _, _, _, _, _, _, hs1⟩ := hp
      subst hs1
      by_cases he : admin = admin2
      · subst he
        rw [hr] at hr0
        cases hr0
        refine ⟨{ r with total_datasets := r.total_datasets + 1 }, ?_,
          Nat.le_succ _⟩
        simp [successState, lookupKey_cons]
      · refine ⟨r, ?_, le_refl _⟩
        simp only [successState, lookupKey_cons, if_neg he]
        exact hr

theorem stepOp_datasets_bounded (s : ChainState) (o : Op)
    (hs : ∀ p ∈ s.datasets, DatasetOk p.2) :
    ∀ p ∈ (stepOp s o).datasets, DatasetOk p.2 := by
  cases o with
  | initOp a2 b =>
    simp only [stepOp, initializeRegistry]
    cases h2 : lookupKey a2 s.registries with
    | some r3 =>
      simp only [applyTx]
      exact hs
    | none =>
      simp only [applyTx]
      exact hs
  | createOp admin2 call =>
    simp only [stepOp]
    cases hp : processCreateDataset s admin2 call.user call.contributor
        call.now call.args call.callerUploadTimestamp call.callerLastUpdated
        call.callerDownloadCount call.callerIsActive call.bumpDataset with
    | error e =>
      simp only [hp, applyTx]
      exact hs
    | ok s1 =>
      simp only [hp, applyTx]
      rw [processCreateDataset_ok] at hp
      obtain ⟨r0, rep0, _, _, _, h1, h2, h3, _, _, _, hs1⟩ := hp
      subst hs1
      intro p hp2
      simp only [successState, List.mem_cons] at hp2
      rcases hp2 with he | hmem
      · subst he
        exact ⟨h1, h2, h3⟩
      · exact hs p hmem

/- ------------------------------------------------------------------ -/
/- Claim theorems                                                      -/
/- ------------------------------------------------------------------ -/

/-- C1: the claim says a `create_dataset` call that would overflow
`Registry.total_datasets` fails by returning `NumericalOverflow` rather
than panicking.  The code (`create_dataset.rs` line 108) instead computes
`registry.total_datasets.checked_add(1).unwrap()`: at a registry whose
counter sits at the `u64` maximum, an otherwise valid call aborts with a
panic, not with the `NumericalOverflow` error. -/
theorem c1_registry_overflow_panics :
    processCreateDataset exSMax 0 9 1 1234 (exArgs 80) 0 none 0 true 3 =
      .error .panicked := by
  decide

/-- C2: if the Reputation update step would overflow (`total_uploads + 1`
exceeds `u32`, or `total_quality_score + quality_score` exceeds `u64`), the
whole operation is all-or-nothing: the instruction never returns a new
state, and under the transactional apply the chain state — registry,
datasets and reputation counters — is exactly unchanged. -/
theorem c2_reputation_overflow_atomic :
    ∀ (s : ChainState) (admin user c : Pubkey) (now : Int)
      (a : CreateDatasetArgs) (cut : Int) (clu : Option Int) (cdc : Nat)
      (cia : Bool) (b : Nat) (rep : Reputation),
      lookupKey c s.reputations = some rep →
      (¬ rep.total_uploads + 1 < 2 ^ 32 ∨
        ¬ rep.total_quality_score + a.quality_score < 2 ^ 64) →
      (∀ s2, processCreateDataset s admin user c now a cut clu cdc cia b ≠
        .ok s2) ∧
      applyTx s (processCreateDataset s admin user c now a cut clu cdc cia b)
        = s := by
  intro s admin user c now a cut clu cdc cia b rep hrep hov
  have hnot : ∀ s2,
      processCreateDataset s admin user c now a cut clu cdc cia b ≠ .ok s2 := by
    intro s2 h
    rw [processCreateDataset_ok] at h
    obtain ⟨r0, rep0, _, hrep0, _, _, _, _, _, h5, h6, _⟩ := h
    rw [hrep] at hrep0
    cases hrep0
    rcases hov with hov | hov
    · exact hov h5
    · exact hov h6
  refine ⟨hnot, ?_⟩
  cases hp : processCreateDataset s admin user c now a cut clu cdc cia b with
  | ok s2 => exact absurd hp (hnot s2)
  | error e => rfl

/-- Witness for C2: with `total_uploads` at the `u32` maximum, the call on
`exSOv` cannot succeed and leaves the state unchanged. -/
theorem c2_reputation_overflow_atomic_witness :
    (lookupKey 1 exSOv.reputations = some exRepOv ∧
      ¬ exRepOv.total_uploads + 1 < 2 ^ 32) ∧
    (∀ s2, processCreateDataset exSOv 0 9 1 1234 (exArgs 80) 0 none 0 true 3 ≠
      .ok s2) ∧
    applyTx exSOv
      (processCreateDataset exSOv 0 9 1 1234 (exArgs 80) 0 none 0 true 3) =
      exSOv :=
  ⟨⟨by decide, by decide⟩,
    c2_reputation_overflow_atomic exSOv 0 9 1 1234 (exArgs 80) 0 none 0 true 3
      exRepOv (by decide) (Or.inl (by decide))⟩

/-- C3: validation runs in the fixed order file-name length, quality
score, file size — an over-long file name wins over any later violation,
an out-of-range quality score wins over an over-large file size — each
failure yields exactly the corresponding error kind, and any failing call
leaves the chain state untouched (zero record mutations). -/
theorem c3_validation_order :
    (∀ (dk ck : Pubkey) (now : Int) (b : Nat) (r : Registry)
      (rep : Reputation) (a : CreateDatasetArgs),
      100 < a.file_name.length →
      create_dataset dk ck now b r rep a = .error (.program .FileNameTooLong)) ∧
    (∀ (dk ck : Pubkey) (now : Int) (b : Nat) (r : Registry)
      (rep : Reputation) (a : CreateDatasetArgs),
      a.file_name.length ≤ 100 → 100 < a.quality_score →
      create_dataset dk ck now b r rep a =
        .error (.program .InvalidQualityScore)) ∧
    (∀ (dk ck : Pubkey) (now : Int) (b : Nat) (r : Registry)
      (rep : Reputation) (a : CreateDatasetArgs),
      a.file_name.length ≤ 100 → a.quality_score ≤ 100 →
      104857600 < a.file_size →
      create_dataset dk ck now b r rep a = .error (.program .FileTooLarge)) ∧
    (∀ (s : ChainState) (admin user c : Pubkey) (now : Int)
      (a : CreateDatasetArgs) (cut : Int) (clu : Option Int) (cdc : Nat)
      (cia : Bool) (b : Nat) (e : TxError),
      processCreateDataset s admin user c now a cut clu cdc cia b = .error e →
      applyTx s (processCreateDataset s admin user c now a cut clu cdc cia b)
        = s) :=
  ⟨fun _ _ _ _ _ _ _ h => create_dataset_fileName h,
   fun _ _ _ _ _ _ _ h1 h2 => create_dataset_qualityScore h1 h2,
   fun _ _ _ _ _ _ _ h1 h2 h3 => create_dataset_fileSize h1 h2 h3,
   fun _ _ _ _ _ _ _ _ _ _ _ _ h => processCreateDataset_error_applyTx h⟩

/-- Witness for C3: a 101-byte file name fails with `FileNameTooLong`
(even with quality score also out of range), quality score 101 fails with
`InvalidQualityScore`, file size 104857601 fails with `FileTooLarge`, and
the failing instruction leaves `exS0` unchanged. -/
theorem c3_validation_order_witness :
    create_dataset 3 1 1234 3 exReg0 exRep
      { exArgs 101 with file_name := List.replicate 101 0 } =
      .error (.program .FileNameTooLong) ∧
    create_dataset 3 1 1234 3 exReg0 exRep (exArgs 101) =
      .error (.program .InvalidQualityScore) ∧
    create_dataset 3 1 1234 3 exReg0 exRep
      { exArgs 80 with file_size := 104857601 } =
      .error (.program .FileTooLarge) ∧
    applyTx exS0
      (processCreateDataset exS0 0 9 1 1234 (exArgs 101) 0 none 0 true 3) =
      exS0 :=
  ⟨c3_validation_order.1 3 1 1234 3 exReg0 exRep _ (by decide),
   c3_validation_order.2.1 3 1 1234 3 exReg0 exRep _ (by decide) (by decide),
   c3_validation_order.2.2.1 3 1 1234 3 exReg0 exRep _ (by decide) (by decide)
     (by decide),
   c3_validation_order.2.2.2 exS0 0 9 1 1234 (exArgs 101) 0 none 0 true 3
     (.program .InvalidQualityScore) (by decide)⟩

/-- C4: the claim says every successful `create_dataset` call increases
the contributor's stored `total_uploads` by exactly 1 and
`total_quality_score` by exactly `quality_score`.  The handler does compute
that update, but the `reputation` account (`create_dataset.rs` lines 39–43)
is not `#[account(mut)]`, so Anchor's exit never writes it back: the valid
call with quality score 80 on the fresh state succeeds, yet the stored
reputation record is still the fresh `exRep`, with `total_uploads = 0` and
`total_quality_score = 0`. -/
theorem c4_reputation_update_not_persisted :
    processCreateDataset exS0 0 9 1 1234 (exArgs 80) 0 none 0 true 3 =
      .ok exS80 ∧
    lookupKey 1 exS80.reputations = some exRep ∧
    exRep.total_uploads = 0 ∧ exRep.total_quality_score = 0 := by
  refine ⟨?_, ?_, ?_, ?_⟩ <;> decide

/-- C5: the stored `Dataset` record of every successful call has
`last_updated = none`, `download_count = 0`, `is_active = true`, `id` equal
to the record's own storage address, and `upload_timestamp` equal to the
clock value at call time; and the instruction's outcome is independent of
the caller-supplied `upload_timestamp`, `last_updated`, `download_count`
and `is_active` arguments, which are never stored. -/
theorem c5_dataset_defaults :
    (∀ (s : ChainState) (admin user c : Pubkey) (now : Int)
      (a : CreateDatasetArgs) (cut cut2 : Int) (clu clu2 : Option Int)
      (cdc cdc2 : Nat) (cia cia2 : Bool) (b : Nat),
      processCreateDataset s admin user c now a cut clu cdc cia b =
        processCreateDataset s admin user c now a cut2 clu2 cdc2 cia2 b) ∧
    (∀ (s : ChainState) (admin user c : Pubkey) (now : Int)
      (a : CreateDatasetArgs) (cut : Int) (clu : Option Int) (cdc : Nat)
      (cia : Bool) (b : Nat) (s2 : ChainState),
      processCreateDataset s admin user c now a cut clu cdc cia b = .ok s2 →
      ∃ d, lookupKey (datasetPda c) s2.datasets = some d ∧
        d.last_updated = none ∧ d.download_count = 0 ∧ d.is_active = true ∧
        d.id = datasetPda c ∧ d.upload_timestamp = now) := by
  constructor
  · intro s admin user c now a cut cut2 clu clu2 cdc cdc2 cia cia2 b
    rfl
  · intro s admin user c now a cut clu cdc cia b s2 h
    rw [processCreateDataset_ok] at h
    obtain ⟨r0, rep0, _, _, _, _, _, _, _, _, _, hs2⟩ := h
    subst hs2
    refine ⟨populatedDataset (datasetPda c) c now b a, ?_, rfl, rfl, rfl,
      rfl, rfl⟩
    simp [successState, lookupKey_cons]

/-- Witness for C5: the call on `exS0` with clock 1234 and caller-supplied
timestamp 999, `last_updated = some 5`, `download_count = 42`,
`is_active = false` stores the defaults and the clock value; changing those
caller arguments does not change the outcome. -/
theorem c5_dataset_defaults_witness :
    processCreateDataset exS0 0 9 1 1234 (exArgs 80) 999 (some 5) 42 false 3 =
      processCreateDataset exS0 0 9 1 1234 (exArgs 80) 0 none 0 true 3 ∧
    (∃ d, lookupKey (datasetPda 1) exS80.datasets = some d ∧
      d.last_updated = none ∧ d.download_count = 0 ∧ d.is_active = true ∧
      d.id = datasetPda 1 ∧ d.upload_timestamp = 1234) :=
  ⟨c5_dataset_defaults.1 exS0 0 9 1 1234 (exArgs 80) 999 0 (some 5) none 42 0
      false true 3,
   c5_dataset_defaults.2 exS0 0 9 1 1234 (exArgs 80) 0 none 0 true 3 exS80
      (by decide)⟩

/-- C6: the claim says two successive valid `create_dataset` calls by one
contributor (quality scores 50 then 70) both succeed and end with the
stored reputation at `total_uploads = 2`, `total_quality_score = 120`, and
in general that k successful calls add k and sum(q1..qk).  On the code the
scenario fails twice over: the first call succeeds but its reputation
update is never persisted (the `reputation` account is not `mut`), so the
stored record still reads `total_uploads = 0`, `total_quality_score = 0`;
and the second call by the same contributor aborts with an
account-already-in-use error, because the dataset address derives from the
seeds `["dataset", contributor]` alone. -/
theorem c6_scenarioE_fails :
    processCreateDataset exS0 0 9 1 1234 (exArgs 50) 0 none 0 true 3 =
      .ok exS1 ∧
    lookupKey 1 exS1.reputations = some exRep ∧
    exRep.total_uploads = 0 ∧ exRep.total_quality_score = 0 ∧
    processCreateDataset exS1 0 9 1 1235 (exArgs 70) 0 none 0 true 3 =
      .error .accountAlreadyInUse := by
  refine ⟨?_, ?_, ?_, ?_, ?_⟩ <;> decide

/-- C7: for any sequence of successful `create_dataset` calls against one
registry, `total_datasets` afterwards equals its initial value plus the
number of calls; and no operation of the core — `initialize` or
`create_dataset`, successful or not — ever decreases any registry's
`total_datasets`. -/
theorem c7_registry_conservation :
    (∀ (admin : Pubkey) (calls : List CreateCall) (s : ChainState)
      (r : Registry) (s2 : ChainState),
      lookupKey admin s.registries = some r →
      runCreates admin s calls = .ok s2 →
      ∃ r2, lookupKey admin s2.registries = some r2 ∧
        r2.total_datasets = r.total_datasets + calls.length) ∧
    (∀ (s : ChainState) (o : Op) (admin : Pubkey) (r : Registry),
      lookupKey admin s.registries = some r →
      ∃ r2, lookupKey admin (stepOp s o).registries = some r2 ∧
        r.total_datasets ≤ r2.total_datasets) :=
  ⟨fun admin calls s r s2 hr h =>
      (runCreates_registry admin calls s r s2 hr h).imp
        (fun _ h2 => ⟨h2.1, h2.2.1⟩),
   fun s o admin r hr => stepOp_registry_mono s o admin r hr⟩

/-- Witness for C7: two successful calls (contributors 1 and 2) on
`exS0b` take the registry counter from 0 to 2, and one `initialize`
operation on `exS0` does not decrease the counter. -/
theorem c7_registry_conservation_witness :
    (∃ r2, lookupKey 0 exS2.registries = some r2 ∧
      r2.total_datasets = exReg0.total_datasets +
        [exCall 50, exCallB 70].length) ∧
    (∃ r2, lookupKey 0 (stepOp exS0 (.initOp 4 6)).registries = some r2 ∧
      exReg0.total_datasets ≤ r2.total_datasets) :=
  ⟨c7_registry_conservation.1 0 [exCall 50, exCallB 70] exS0b exReg0 exS2
      (by decide) (by decide),
   c7_registry_conservation.2 exS0 (.initOp 4 6) 0 exReg0 (by decide)⟩

/-- C8: for every successful `create_dataset` call on a reputation record
whose `contributor` field is already set — that is, holds the contributor
identity the record's address is derived from — the field's value is
unchanged by the call. -/
theorem c8_contributor_immutable :
    ∀ (s : ChainState) (admin user c : Pubkey) (now : Int)
      (a : CreateDatasetArgs) (cut : Int) (clu : Option Int) (cdc : Nat)
      (cia : Bool) (b : Nat) (rep : Reputation) (s2 : ChainState),
      lookupKey c s.reputations = some rep →
      rep.contributor = c →
      processCreateDataset s admin user c now a cut clu cdc cia b = .ok s2 →
      ∃ rep2, lookupKey c s2.reputations = some rep2 ∧
        rep2.contributor = rep.contributor := by
  intro s admin user c now a cut clu cdc cia b rep s2 hrep hset h
  rw [processCreateDataset_ok] at h
  obtain ⟨r0, rep0, _, hrep0, _, _, _, _, _, _, _, hs2⟩ := h
  rw [hrep] at hrep0
  cases hrep0
  subst hs2
  exact ⟨rep, hrep, rfl⟩

/-- Witness for C8: the successful call on `exS0` leaves the contributor
field at its prior value `1`. -/
theorem c8_contributor_immutable_witness :
    exRep.contributor = 1 ∧
    (∃ rep2, lookupKey 1 exS80.reputations = some rep2 ∧
      rep2.contributor = exRep.contributor) :=
  ⟨by decide,
   c8_contributor_immutable exS0 0 9 1 1234 (exArgs 80) 0 none 0 true 3 exRep
     exS80 (by decide) (by decide) (by decide)⟩

/-- C9: `create_dataset` mutates no reputation field other than
`contributor`, `total_uploads` and `total_quality_score`: on success the
fields `total_downloads`, `total_citations`, `reputation_score`,
`download_time` (and `bump`) are exactly preserved, and on any failure the
whole chain state is unchanged. -/
theorem c9_reputation_frame :
    (∀ (s : ChainState) (admin user c : Pubkey) (now : Int)
      (a : CreateDatasetArgs) (cut : Int) (clu : Option Int) (cdc : Nat)
      (cia : Bool) (b : Nat) (rep : Reputation) (s2 : ChainState),
      lookupKey c s.reputations = some rep →
      processCreateDataset s admin user c now a cut clu cdc cia b = .ok s2 →
      ∃ rep2, lookupKey c s2.reputations = some rep2 ∧
        rep2.total_downloads = rep.total_downloads ∧
        rep2.total_citations = rep.total_citations ∧
        rep2.reputation_score = rep.reputation_score ∧
        rep2.download_time = rep.download_time ∧
        rep2.bump = rep.bump) ∧
    (∀ (s : ChainState) (admin user c : Pubkey) (now : Int)
      (a : CreateDatasetArgs) (cut : Int) (clu : Option Int) (cdc : Nat)
      (cia : Bool) (b : Nat) (e : TxError),
      processCreateDataset s admin user c now a cut clu cdc cia b = .error e →
      applyTx s (processCreateDataset s admin user c now a cut clu cdc cia b)
        = s) := by
  constructor
  · intro s admin user c now a cut clu cdc cia b rep s2 hrep h
    rw [processCreateDataset_ok] at h
    obtain ⟨r0, rep0, _, hrep0, _, _, _, _, _, _, _, hs2⟩ := h
    rw [hrep] at hrep0
    cases hrep0
    subst hs2
    exact ⟨rep, hrep, rfl, rfl, rfl, rfl, rfl⟩
  · intro s admin user c now a cut clu cdc cia b e h
    exact processCreateDataset_error_applyTx h

/-- Witness for C9: the successful call on `exS0` preserves the four
reserved reputation fields, and the failing call with quality score 101
leaves the state unchanged. -/
theorem c9_reputation_frame_witness :
    (∃ rep2, lookupKey 1 exS80.reputations = some rep2 ∧
      rep2.total_downloads = exRep.total_downloads ∧
      rep2.total_citations = exRep.total_citations ∧
      rep2.reputation_score = exRep.reputation_score ∧
      rep2.download_time = exRep.download_time ∧
      rep2.bump = exRep.bump) ∧
    applyTx exS0
      (processCreateDataset exS0 0 9 1 1234 (exArgs 101) 0 none 0 true 3) =
      exS0 :=
  ⟨c9_reputation_frame.1 exS0 0 9 1 1234 (exArgs 80) 0 none 0 true 3 exRep
      exS80 (by decide) (by decide),
   c9_reputation_frame.2 exS0 0 9 1 1234 (exArgs 101) 0 none 0 true 3
      (.program .InvalidQualityScore) (by decide)⟩

/-- C10: stored dataset records always satisfy the validated bounds: the
record created by a successful call has `file_name` of at most 100 bytes,
`quality_score` at most 100 and `file_size` at most 104857600; and if every
stored dataset satisfies those bounds, they still all do after any
operation of the core (no in-core operation mutates them out of range). -/
theorem c10_dataset_bounds :
    (∀ (s : ChainState) (o : Op),
      (∀ p ∈ s.datasets, DatasetOk p.2) →
      ∀ p ∈ (stepOp s o).datasets, DatasetOk p.2) ∧
    (∀ (s : ChainState) (admin user c : Pubkey) (now : Int)
      (a : CreateDatasetArgs) (cut : Int) (clu : Option Int) (cdc : Nat)
      (cia : Bool) (b : Nat) (s2 : ChainState),
      processCreateDataset s admin user c now a cut clu cdc cia b = .ok s2 →
      ∃ d, lookupKey (datasetPda c) s2.datasets = some d ∧ DatasetOk d) := by
  constructor
  · intro s o hs
    exact stepOp_datasets_bounded s o hs
  · intro s admin user c now a cut clu cdc cia b s2 h
    rw [processCreateDataset_ok] at h
    obtain ⟨r0, rep0, _, _, _, h1, h2, h3, _, _, _, hs2⟩ := h
    subst hs2
    refine ⟨populatedDataset (datasetPda c) c now b a, ?_, h1, h2, h3⟩
    simp [successState, lookupKey_cons]

/-- Witness for C10: starting from `exS0` (no datasets, bounds hold
vacuously) the create operation with quality score 80 keeps every stored
dataset within bounds, and the record it creates satisfies them. -/
theorem c10_dataset_bounds_witness :
    (∀ p ∈ (stepOp exS0 (.createOp 0 (exCall 80))).datasets, DatasetOk p.2) ∧
    (∃ d, lookupKey (datasetPda 1) exS80.datasets = some d ∧ DatasetOk d) :=
  ⟨c10_dataset_bounds.1 exS0 (.createOp 0 (exCall 80))
      (by intro p hp; cases hp),
   c10_dataset_bounds.2 exS0 0 9 1 1234 (exArgs 80) 0 none 0 true 3 exS80
      (by decide)⟩

end ARB
